import Mathlib

/-!
Verification of the stablefused example notebooks.

The repository consists of two Jupyter notebooks that drive the stablefused
diffusion pipeline library:
  * `src/unnamed/part_000` — the text-to-image notebook;
  * `src/examples/inpaint_diffusion.ipynb` — the inpainting notebook.

The notebooks' own code (parameter setup, batching with numpy, cell ordering,
post-processing calls) is embedded here directly from the source.  The library
functions they call (`model.__call__`, `image_grid`, `pil_to_video`,
`InpaintDiffusion`) are not present under `src/`, so they are modelled from the
specification's description of the pipeline boundary, with doc comments marking
each such definition.
-/

namespace StableFused

/-! ## Data model

Numpy arrays are embedded as nested lists: a grayscale image (`convert("L")`)
is a `(H, W)` array, an RGB image (`convert("RGB")`) is a `(H, W, 3)` array.
Pixel components are natural numbers (uint8 values). -/

/-- A grayscale image: H rows of W pixel values. -/
def GrayImage : Type := List (List Nat)

/-- An RGB image: H rows of W pixels, each a list of 3 channel values. -/
def RGBImage : Type := List (List (List Nat))

/-- Shape predicate for a rank-2 array: `h` rows, each of length `w`. -/
def shape2 (h w : Nat) (a : List (List α)) : Prop :=
  a.length = h ∧ ∀ r ∈ a, r.length = w

/-- Shape predicate for a rank-3 array: `h × w × c`. -/
def shape3 (h w c : Nat) (a : List (List (List α))) : Prop :=
  a.length = h ∧ ∀ r ∈ a, r.length = w ∧ ∀ p ∈ r, p.length = c

/-- Shape predicate for a rank-4 array: `n × h × w × c`. -/
def shape4 (n h w c : Nat) (a : List (List (List (List α)))) : Prop :=
  a.length = n ∧ ∀ x ∈ a, shape3 h w c x

instance : ∀ (h w : Nat) (a : List (List α)), Decidable (shape2 h w a) :=
  fun h w a => inferInstanceAs (Decidable (a.length = h ∧ ∀ r ∈ a, r.length = w))

instance : ∀ (h w c : Nat) (a : List (List (List α))), Decidable (shape3 h w c a) :=
  fun h w c a =>
    inferInstanceAs (Decidable (a.length = h ∧ ∀ r ∈ a, r.length = w ∧ ∀ p ∈ r, p.length = c))

instance : ∀ (n h w c : Nat) (a : List (List (List (List α)))),
    Decidable (shape4 n h w c a) :=
  fun n h w c a =>
    inferInstanceAs (Decidable (a.length = n ∧ ∀ x ∈ a, shape3 h w c x))

/-! ## Concrete notebook parameters

Transcribed from the parameter cells of the two notebooks. -/

/-- The four prompts of the text-to-image notebook's visualization section. -/
def t2i_prompt : List String :=
  [ "Gothic painting of an ancient castle at night, with a full moon, gargoyles, and shadows"
  , "A lion in galaxies, spirals, nebulae, stars, smoke, iridescent, intricate detail, octane render, 8k"
  , "A close up image of an very beautiful woman, aesthetic, realistic, high quality"
  , "Concept art for a post-apocalyptic world with ruins, overgrown vegetation, and a lone survivor" ]

/-- The single negative prompt of the text-to-image notebook. -/
def t2i_negative_prompt : String :=
  "cartoon, unrealistic, blur, boring background, deformed, disfigured, low resolution, unattractive"

/-- `[negative_prompt] * len(prompt)` from the text-to-image notebook's batched call. -/
def t2i_negative_prompt_list : List String :=
  List.replicate t2i_prompt.length t2i_negative_prompt

/-- The four prompts of the inpainting notebook. -/
def inpaint_prompt : List String :=
  [ "Digital illustration of a mythical creature, high quality, realistic, 8k"
  , "Digital illustration of mythical creatures, high quality, realistic, 8k"
  , "Digital illustration of a dragon, high quality, realistic, 8k"
  , "Digital illustration of a ferocious lion, high quality, realistic, 8k" ]

/-- The inpainting notebook's negative prompt. -/
def inpaint_negative_prompt : String :=
  "cartoon, unrealistic, blur, boring background, deformed, disfigured, low resolution, unattractive"

/-- `num_images = len(prompt)` from the inpainting notebook. -/
def inpaint_num_images : Nat := inpaint_prompt.length

/-- `[negative_prompt] * num_images` from the inpainting notebook's call. -/
def inpaint_negative_prompt_list : List String :=
  List.replicate inpaint_num_images inpaint_negative_prompt

/-! ## Input preparation of the inpainting notebook

Embeds cell 10 of `inpaint_diffusion.ipynb`:
```
start_image = np.array(original_image.convert("RGB"))
mask_image = np.array(mask.convert("L"))
start_image = np.expand_dims(start_image, axis=0).repeat(num_images, axis=0)
mask_image = np.expand_dims(mask_image, axis=0).repeat(num_images, axis=0)
mask_image = mask_image.reshape(*mask_image.shape, 1)
```
`np.expand_dims(a, axis=0).repeat(n, axis=0)` stacks `n` identical copies of
`a` along a new leading axis; `reshape(*shape, 1)` wraps each scalar in a
singleton trailing axis. -/

/-- `np.expand_dims(a, axis=0).repeat(n, axis=0)`: `n` identical copies of `a`
along a new leading axis. -/
def expandRepeat (n : Nat) (a : α) : List α := List.replicate n a

/-- `reshape(*shape, 1)` on a rank-2 array: wrap every scalar in a length-1
trailing axis. -/
def addTrailingAxis (a : List (List Nat)) : List (List (List Nat)) :=
  a.map (fun r => r.map (fun v => [v]))

/-- The prepared `start_image` batch of the inpainting notebook. -/
def prepare_start_image (img : RGBImage) (n : Nat) : List RGBImage :=
  expandRepeat n img

/-- The prepared `mask_image` batch of the inpainting notebook: repeat along a
new leading axis, then add the trailing singleton channel axis. -/
def prepare_mask_image (mask : GrayImage) (n : Nat) : List (List (List (List Nat))) :=
  (expandRepeat n mask).map addTrailingAxis

/-! ## The diffusion pipeline boundary

`model.__call__` of the stablefused library is code of this repository that is
not under `src/` (only the notebooks that call it are), so it is modelled from
the specification. -/

/-- Modelled from the spec: the external diffusion machinery behind the
pipeline (UNet/VAE/text-encoder orchestration), treated as an opaque
collaborator.  `init i` gives the initial latent for the `i`-th prompt of a
batch (the seeded randomness), `step p np` performs one denoising step guided
by prompt `p` and negative prompt `np`, `decode` maps a latent to pixel space.
For the inpainting pipeline the source image and mask are identical across the
batch (the notebook replicates one image), so they are closed over by `step`
rather than passed per prompt. -/
structure DiffusionBackend (L I : Type) where
  init : Nat → L
  step : String → String → L → L
  decode : L → I

/-- Modelled from the spec: the denoising trajectory of one prompt — the
sequence of intermediate latent states, one per denoising step. -/
def latentHistory (b : DiffusionBackend L I) (p np : String) : Nat → L → List L
  | 0, _ => []
  | n + 1, l =>
    let l' := b.step p np l
    l' :: latentHistory b p np n l'

/-- Modelled from the spec: the latent reached after running all denoising
steps of the trajectory. -/
def finalLatent (b : DiffusionBackend L I) (p np : String) : Nat → L → L
  | 0, l => l
  | n + 1, l => finalLatent b p np n (b.step p np l)

/-- Modelled from the spec: the pipeline call without `return_latent_history`
— one final image per prompt, each prompt paired positionally with its
negative prompt.  The index accumulator `i` tracks the position in the batch. -/
def callFinals (b : DiffusionBackend L I) :
    List String → List String → Nat → Nat → List I
  | p :: ps, np :: nps, steps, i =>
    b.decode (finalLatent b p np steps (b.init i)) :: callFinals b ps nps steps (i + 1)
  | _, _, _, _ => []

/-- Modelled from the spec: the pipeline call with `return_latent_history=True`
— for each prompt, every latent of its denoising trajectory decoded to an
image. -/
def callHistory (b : DiffusionBackend L I) :
    List String → List String → Nat → Nat → List (List I)
  | p :: ps, np :: nps, steps, i =>
    (latentHistory b p np steps (b.init i)).map b.decode
      :: callHistory b ps nps steps (i + 1)
  | _, _, _, _ => []

/-- The pipeline's result: final images only, or the full per-step history. -/
inductive CallResult (I : Type) where
  | finals (imgs : List I)
  | history (imgs : List (List I))
deriving DecidableEq

/-- Modelled from the spec: the call-style invocation of the pipeline.  With
`return_latent_history` set it returns the per-step snapshots for every
prompt; otherwise only the final image per prompt. -/
def modelCall (b : DiffusionBackend L I) (prompts negative_prompts : List String)
    (num_inference_steps : Nat) (return_latent_history : Bool) : CallResult I :=
  if return_latent_history then
    .history (callHistory b prompts negative_prompts num_inference_steps 0)
  else
    .finals (callFinals b prompts negative_prompts num_inference_steps 0)

/-! ## Post-processing: the image grid

`image_grid` of `stablefused.utils` is code of this repository not under
`src/`, so it is modelled from the spec's description: tiling a batch of
images into a grid of `rows` rows and `cols` columns. -/

/-- Modelled from the spec: `image_grid` tiles the batch into `rows` rows of
`cols` images each, consuming the batch in order. -/
def image_grid (imgs : List α) (rows cols : Nat) : List (List α) :=
  match rows with
  | 0 => []
  | r + 1 => imgs.take cols :: image_grid (imgs.drop cols) r cols

/-- The grid layout of the text-to-image notebook:
`image_grid(imgs, rows=2, cols=len(prompt) // 2)`. -/
def t2i_grid (imgs : List α) : List (List α) :=
  image_grid imgs 2 (t2i_prompt.length / 2)

/-- The grid layout of the inpainting notebook:
`image_grid(images, rows=2, cols=math.ceil(num_images / 2))`, with
`math.ceil(n / 2)` embedded as `(n + 1) / 2`. -/
def inpaint_grid (imgs : List α) : List (List α) :=
  image_grid imgs 2 ((inpaint_num_images + 1) / 2)

/-! ## Inpainting mask semantics

`InpaintDiffusion.__call__` is code of this repository not under `src/`; its
mask semantics are modelled from the spec's glossary ("generating content only
within masked regions of an existing image") and the inpainting notebook's own
description (cell 9): "Where the mask is black, information in the image is
retained, but where the mask is white, diffusion is used to inpaint the
image."  Mask values come from `convert("L")`: black is 0, white is 255. -/

/-- Modelled from the spec: one pixel of the inpainted output — retained from
the original where the mask is black (0), produced by diffusion elsewhere. -/
def inpaintPixel (orig gen : α) (m : Nat) : α :=
  if m = 0 then orig else gen

/-- One row of the inpainted output. -/
def inpaintRow : List α → List α → List Nat → List α
  | o :: os, g :: gs, m :: ms => inpaintPixel o g m :: inpaintRow os gs ms
  | _, _, _ => []

/-- Modelled from the spec: the inpainted image, combining the original image
`orig` and the diffusion-generated content `gen` under mask `mask`, pixel by
pixel. -/
def inpaintImage : List (List α) → List (List α) → List (List Nat) → List (List α)
  | o :: os, g :: gs, m :: ms => inpaintRow o g m :: inpaintImage os gs ms
  | _, _, _ => []

/-- Rank-2 array access with default, `a[i][j]`. -/
def at2 (a : List (List α)) (d : α) (i j : Nat) : α :=
  (a.getD i []).getD j d

/-! ## The inpainting notebook as a fallible run

Embeds the executable flow of `inpaint_diffusion.ipynb`: load the image and
mask from disk (`Image.open` raises on a missing file), prepare the batches,
call the pipeline, tile the result into a grid.  The notebook contains no
try/except; the run is a plain monadic sequence in `Except`, so the first
failure is the result.  External effects are parameters: `fs` is the file
system, `conv_rgb`/`conv_gray` are `np.array(·.convert(...))`, `pipeline` is
the `InpaintDiffusion` call (which may fail, e.g. with an accelerator
out-of-memory). -/

/-- The failures the spec names: a missing file at load, incompatible
image/mask shapes, out-of-memory on the accelerator. -/
inductive RunError where
  | fileNotFound (name : String)
  | shapeMismatch
  | outOfMemory
deriving DecidableEq

/-- The full argument list of the inpainting notebook's pipeline call.
`guidance_scale=10.0` is an exact small float, embedded as the numeral 10. -/
structure InpaintInput where
  prompt : List String
  negative_prompt : List String
  image : List RGBImage
  mask : List (List (List (List Nat)))
  num_inference_steps : Nat
  start_step : Nat
  image_height : Nat
  image_width : Nat
  guidance_scale : Nat
  seed : Nat

/-- `image_filename` of the inpainting notebook. -/
def image_filename : String := "mechanical-robot-base-image.png"

/-- `mask_filename` of the inpainting notebook. -/
def mask_filename : String := "mask.png"

/-- `Image.open`: the file's image, or a propagated error when missing. -/
def imageOpen (fs : String → Option Img) (name : String) : Except RunError Img :=
  match fs name with
  | some i => .ok i
  | none => .error (.fileNotFound name)

/-- The inpainting notebook run, end to end: load the two files, prepare the
batches, seed, call the pipeline, tile the outputs into the notebook's grid. -/
def inpaintNotebookRun (fs : String → Option Img)
    (conv_rgb : Img → RGBImage) (conv_gray : Img → GrayImage)
    (pipeline : InpaintInput → Except RunError (List RGBImage))
    (seed : Nat) : Except RunError (List (List RGBImage)) := do
  let original_image ← imageOpen fs image_filename
  let mask ← imageOpen fs mask_filename
  let start_image := prepare_start_image (conv_rgb original_image) inpaint_num_images
  let mask_image := prepare_mask_image (conv_gray mask) inpaint_num_images
  let images ← pipeline
    { prompt := inpaint_prompt
      negative_prompt := inpaint_negative_prompt_list
      image := start_image
      mask := mask_image
      num_inference_steps := 20
      start_step := 5
      image_height := 512
      image_width := 512
      guidance_scale := 10
      seed := seed }
  pure (inpaint_grid images)

/-! ## Pipeline constructions and call options

The pipeline objects the notebooks construct, and the keyword options each
call-style invocation passes, transcribed from the notebook cells. -/

/-- A pipeline construction: the checkpoint identifier it is built from, and
the optional dtype override (`torch_dtype=torch.float16` in the inpainting
notebook). -/
structure ModelConstruction where
  model_id : String
  torch_dtype : Option String
deriving DecidableEq

/-- `TextToImageDiffusion(model_id="runwayml/stable-diffusion-v1-5")`. -/
def t2i_construction : ModelConstruction :=
  { model_id := "runwayml/stable-diffusion-v1-5", torch_dtype := none }

/-- `InpaintDiffusion(model_id="runwayml/stable-diffusion-inpainting",
torch_dtype=torch.float16)`. -/
def inpaint_construction : ModelConstruction :=
  { model_id := "runwayml/stable-diffusion-inpainting", torch_dtype := some "float16" }

/-- The keyword options a call-style pipeline invocation can pass. -/
inductive CallOption where
  | promptOpt
  | negativePromptOpt
  | numInferenceStepsOpt
  | guidanceScaleOpt
  | imageOpt
  | maskOpt
  | startStepOpt
  | imageHeightOpt
  | imageWidthOpt
  | returnLatentHistoryOpt
deriving DecidableEq

/-- The recognized option set of the spec: prompt(s), negative prompt(s),
inference step count, guidance scale, source image, mask image, starting step,
target image dimensions, latent-state-history flag. -/
def recognizedOptions : List CallOption :=
  [ .promptOpt, .negativePromptOpt, .numInferenceStepsOpt, .guidanceScaleOpt
  , .imageOpt, .maskOpt, .startStepOpt, .imageHeightOpt, .imageWidthOpt
  , .returnLatentHistoryOpt ]

/-- Options of the text-to-image notebook's first call:
`model(prompt=prompt, num_inference_steps=num_inference_steps)`. -/
def t2i_call1_options : List CallOption :=
  [ .promptOpt, .numInferenceStepsOpt ]

/-- Options of the text-to-image notebook's batched call:
`model(prompt=..., negative_prompt=..., num_inference_steps=...,
guidance_scale=10.0, return_latent_history=True)`. -/
def t2i_call2_options : List CallOption :=
  [ .promptOpt, .negativePromptOpt, .numInferenceStepsOpt, .guidanceScaleOpt
  , .returnLatentHistoryOpt ]

/-- Options of the inpainting notebook's call: `model(prompt=...,
negative_prompt=..., image=..., mask=..., num_inference_steps=20,
start_step=5, image_height=512, image_width=512, guidance_scale=10.0)`. -/
def inpaint_call_options : List CallOption :=
  [ .promptOpt, .negativePromptOpt, .imageOpt, .maskOpt, .numInferenceStepsOpt
  , .startStepOpt, .imageHeightOpt, .imageWidthOpt, .guidanceScaleOpt ]

/-! ## Cell-order traces of the notebooks

Each code cell contributes its events in source order.  A cell whose last
expression is an image (Jupyter renders it) contributes a `display` event, as
does an explicit `display(...)` call. -/

/-- The kinds of step a notebook cell performs. -/
inductive Step where
  | install
  | importLibs
  | construct
  | setParams
  | configure
  | loadFiles
  | callPipeline
  | receiveOutput
  | postprocess
  | display
  | writeVideo
deriving DecidableEq

/-- The text-to-image notebook's events in cell order: pip install; imports;
`model = TextToImageDiffusion(...)`; prompt/negative-prompt/steps/seed setup;
`model(prompt=..., num_inference_steps=...)[0]` (a call whose resulting image
the cell displays); the four-prompt list; `enable_attention_slicing` /
`enable_slicing` / `enable_tiling`; the batched call bound to `images`; the
`image_grid` loop over `zip(*images)`; `pil_to_video`; `display(Video(path))`. -/
def t2iTrace : List Step :=
  [ .install, .importLibs, .construct, .setParams
  , .callPipeline, .receiveOutput, .display
  , .setParams, .configure
  , .callPipeline, .receiveOutput
  , .postprocess, .postprocess, .writeVideo, .display ]

/-- The inpainting notebook's events in cell order: pip install; imports;
`model = InpaintDiffusion(...)` with the `enable_*` configuration; parameter
and seed setup; loading image and mask, preparing batches, and displaying the
original/mask pair with `image_grid`; the pipeline call bound to `images`;
`image_grid(images, ...)` displayed as the cell's result. -/
def inpaintTrace : List Step :=
  [ .install, .importLibs, .construct, .configure, .setParams
  , .loadFiles, .postprocess, .display
  , .callPipeline, .receiveOutput
  , .postprocess, .display ]

/-- The phase number a step occupies in the spec's fixed flow
(construct → set parameters → call → receive → post-process → display);
steps outside the flow have no phase. -/
def phase : Step → Option Nat
  | .construct => some 0
  | .setParams => some 1
  | .callPipeline => some 2
  | .receiveOutput => some 3
  | .postprocess => some 4
  | .display => some 5
  | _ => none

/-- Adjacent pairs of the list never decrease. -/
def nondecreasing : List Nat → Bool
  | a :: b :: rest => a ≤ b && nondecreasing (b :: rest)
  | _ => true

/-- A trace follows the spec's fixed order when the phases of its flow steps
never decrease. -/
def fixedOrder (t : List Step) : Prop :=
  nondecreasing (t.filterMap phase) = true

instance : ∀ t : List Step, Decidable (fixedOrder t) :=
  fun t => inferInstanceAs (Decidable (nondecreasing (t.filterMap phase) = true))

/-- Every occurrence of `b` in the trace is preceded by an occurrence of `a`
(`seen` records whether an `a` has been passed). -/
def allPreceded (a b : Step) : List Step → Bool → Bool
  | [], _ => true
  | x :: xs, seen =>
    if x = b && !seen then false
    else allPreceded a b xs (seen || x = a)

/-- After the first occurrence of `b`, some `a` occurs. -/
def existsAfterFirst (a b : Step) : List Step → Bool
  | [] => false
  | x :: xs => if x = b then xs.contains a else existsAfterFirst a b xs

/-! ## Helper lemmas -/

lemma shape3_addTrailingAxis {h w : Nat} {mask : List (List Nat)}
    (hm : shape2 h w mask) : shape3 h w 1 (addTrailingAxis mask) := by
  obtain ⟨hlen, hrow⟩ := hm
  refine ⟨by simpa [addTrailingAxis] using hlen, ?_⟩
  intro r hr
  simp only [addTrailingAxis, List.mem_map] at hr
  obtain ⟨r0, hr0, rfl⟩ := hr
  refine ⟨by simpa using hrow r0 hr0, ?_⟩
  intro p hp
  simp only [List.mem_map] at hp
  obtain ⟨v, _, rfl⟩ := hp
  rfl

lemma image_grid_flatten (imgs : List α) (rows cols : Nat)
    (h : imgs.length = rows * cols) :
    (image_grid imgs rows cols).flatten = imgs := by
  induction rows generalizing imgs with
  | zero =>
    simp only [Nat.zero_mul] at h
    simp [image_grid, List.length_eq_zero.mp h]
  | succ r ih =>
    have hd : (imgs.drop cols).length = r * cols := by
      rw [List.length_drop, h, Nat.succ_mul, Nat.add_sub_cancel]
    simp only [image_grid, List.flatten_cons, ih (imgs.drop cols) hd]
    exact List.take_append_drop cols imgs

lemma latentHistory_length (b : DiffusionBackend L I) (p np : String) :
    ∀ (n : Nat) (l : L), (latentHistory b p np n l).length = n := by
  intro n
  induction n with
  | zero => intro l; rfl
  | succ m ih => intro l; simp [latentHistory, ih]

lemma latentHistory_getLast (b : DiffusionBackend L I) (p np : String) :
    ∀ (n : Nat) (l : L), 0 < n →
      (latentHistory b p np n l).getLast? = some (finalLatent b p np n l) := by
  intro n
  induction n with
  | zero => intro l hpos; omega
  | succ m ih =>
    intro l _
    cases m with
    | zero => rfl
    | succ k =>
      have h1 : latentHistory b p np (k + 2) l
          = b.step p np l :: latentHistory b p np (k + 1) (b.step p np l) := rfl
      have h2 : latentHistory b p np (k + 1) (b.step p np l)
          = b.step p np (b.step p np l)
            :: latentHistory b p np k (b.step p np (b.step p np l)) := rfl
      rw [h1, h2, List.getLast?_cons_cons, ← h2, ih (b.step p np l) (Nat.succ_pos k)]
      rfl

lemma callFinals_length (b : DiffusionBackend L I) :
    ∀ (ps nps : List String) (steps i : Nat), nps.length = ps.length →
      (callFinals b ps nps steps i).length = ps.length := by
  intro ps
  induction ps with
  | nil => intro nps steps i _; cases nps <;> rfl
  | cons p ps ih =>
    intro nps steps i h
    cases nps with
    | nil => simp at h
    | cons np nps =>
      simp only [callFinals, List.length_cons]
      rw [ih nps steps (i + 1) (by simpa using h)]

lemma callFinals_get (b : DiffusionBackend L I) :
    ∀ (ps nps : List String) (steps i k : Nat), nps.length = ps.length →
      k < ps.length →
      (callFinals b ps nps steps i)[k]? =
        some (b.decode (finalLatent b (ps.getD k "") (nps.getD k "") steps
          (b.init (i + k)))) := by
  intro ps
  induction ps with
  | nil => intro nps steps i k _ hk; simp at hk
  | cons p ps ih =>
    intro nps steps i k h hk
    cases nps with
    | nil => simp at h
    | cons np nps =>
      cases k with
      | zero => simp [callFinals]
      | succ k =>
        have hik : i + 1 + k = i + (k + 1) := by omega
        simp only [callFinals, List.getElem?_cons_succ, List.getD_cons_succ]
        rw [ih nps steps (i + 1) k (by simpa using h) (by simpa using hk), hik]

lemma callHistory_length (b : DiffusionBackend L I) :
    ∀ (ps nps : List String) (steps i : Nat), nps.length = ps.length →
      (callHistory b ps nps steps i).length = ps.length := by
  intro ps
  induction ps with
  | nil => intro nps steps i _; cases nps <;> rfl
  | cons p ps ih =>
    intro nps steps i h
    cases nps with
    | nil => simp at h
    | cons np nps =>
      simp only [callHistory, List.length_cons]
      rw [ih nps steps (i + 1) (by simpa using h)]

lemma callHistory_get (b : DiffusionBackend L I) :
    ∀ (ps nps : List String) (steps i k : Nat), nps.length = ps.length →
      k < ps.length →
      (callHistory b ps nps steps i)[k]? =
        some ((latentHistory b (ps.getD k "") (nps.getD k "") steps
          (b.init (i + k))).map b.decode) := by
  intro ps
  induction ps with
  | nil => intro nps steps i k _ hk; simp at hk
  | cons p ps ih =>
    intro nps steps i k h hk
    cases nps with
    | nil => simp at h
    | cons np nps =>
      cases k with
      | zero => simp [callHistory]
      | succ k =>
        have hik : i + 1 + k = i + (k + 1) := by omega
        simp only [callHistory, List.getElem?_cons_succ, List.getD_cons_succ]
        rw [ih nps steps (i + 1) k (by simpa using h) (by simpa using hk), hik]

/-- A concrete backend over natural-number latents and images, used to
evaluate the pipeline model on closed inputs. -/
def sampleBackend : DiffusionBackend Nat Nat :=
  { init := fun i => i, step := fun _ _ l => l + 1, decode := fun l => l }

/-! ## Claim theorems -/

/-- C4: in every batched pipeline invocation made by the notebooks, the batch
lengths match: the negative-prompt list has length equal to the number of
prompts, and for inpainting the image batch and mask batch each have leading
dimension equal to the number of prompts. -/
theorem claim_C4_batch_lengths_match :
    t2i_negative_prompt_list.length = t2i_prompt.length ∧
    inpaint_negative_prompt_list.length = inpaint_prompt.length ∧
    ∀ (img : RGBImage) (mask : GrayImage),
      (prepare_start_image img inpaint_num_images).length = inpaint_prompt.length ∧
      (prepare_mask_image mask inpaint_num_images).length = inpaint_prompt.length := by
  refine ⟨by simp [t2i_negative_prompt_list], ?_, ?_⟩
  · simp [inpaint_negative_prompt_list, inpaint_num_images]
  · intro img mask
    constructor
    · simp [prepare_start_image, expandRepeat, inpaint_num_images]
    · simp [prepare_mask_image, expandRepeat, inpaint_num_images]

/-- C10: after the inpainting notebook's input preparation, for every loaded
source image of shape (H, W, 3) and mask of shape (H, W), `start_image` is a
batch of shape (num_images, H, W, 3) of identical RGB copies and `mask_image`
is a batch of shape (num_images, H, W, 1) of identical single-channel copies,
where `num_images` equals the number of prompts. -/
theorem claim_C10_prepared_batches (img : RGBImage) (mask : GrayImage)
    (h w : Nat) (himg : shape3 h w 3 img) (hmask : shape2 h w mask) :
    inpaint_num_images = inpaint_prompt.length ∧
    shape4 inpaint_num_images h w 3 (prepare_start_image img inpaint_num_images) ∧
    (∀ x ∈ prepare_start_image img inpaint_num_images, x = img) ∧
    shape4 inpaint_num_images h w 1 (prepare_mask_image mask inpaint_num_images) ∧
    (∀ x ∈ prepare_mask_image mask inpaint_num_images, x = addTrailingAxis mask) := by
  refine ⟨rfl, ⟨by simp [prepare_start_image, expandRepeat], ?_⟩, ?_, ?_, ?_⟩
  · intro x hx
    have hxe : x = img :=
      List.eq_of_mem_replicate (by simpa [prepare_start_image, expandRepeat] using hx)
    exact hxe ▸ himg
  · intro x hx
    exact List.eq_of_mem_replicate (by simpa [prepare_start_image, expandRepeat] using hx)
  · refine ⟨by simp [prepare_mask_image, expandRepeat], ?_⟩
    intro x hx
    simp only [prepare_mask_image, expandRepeat, List.mem_map] at hx
    obtain ⟨m0, hm0, rfl⟩ := hx
    rw [List.eq_of_mem_replicate hm0]
    exact shape3_addTrailingAxis hmask
  · intro x hx
    simp only [prepare_mask_image, expandRepeat, List.mem_map] at hx
    obtain ⟨m0, hm0, rfl⟩ := hx
    rw [List.eq_of_mem_replicate hm0]

/-- C10 witness: the preparation invariant evaluated on a concrete 1×1 image
and mask. -/
theorem claim_C10_prepared_batches_witness :
    (shape3 1 1 3 ([[[1, 2, 3]]] : RGBImage) ∧ shape2 1 1 ([[7]] : GrayImage)) ∧
    (inpaint_num_images = inpaint_prompt.length ∧
      shape4 inpaint_num_images 1 1 3
        (prepare_start_image ([[[1, 2, 3]]] : RGBImage) inpaint_num_images) ∧
      (∀ x ∈ prepare_start_image ([[[1, 2, 3]]] : RGBImage) inpaint_num_images,
        x = [[[1, 2, 3]]]) ∧
      shape4 inpaint_num_images 1 1 1
        (prepare_mask_image ([[7]] : GrayImage) inpaint_num_images) ∧
      (∀ x ∈ prepare_mask_image ([[7]] : GrayImage) inpaint_num_images,
        x = addTrailingAxis [[7]])) :=
  ⟨⟨by decide, by decide⟩,
    claim_C10_prepared_batches [[[1, 2, 3]]] [[7]] 1 1 (by decide) (by decide)⟩

/-- C7: every pipeline object the notebooks construct is built from a model
identifier, and every call-style invocation passes only options from the
recognized set. -/
theorem claim_C7_recognized_options :
    t2i_construction.model_id = "runwayml/stable-diffusion-v1-5" ∧
    inpaint_construction.model_id = "runwayml/stable-diffusion-inpainting" ∧
    (∀ o ∈ t2i_call1_options, o ∈ recognizedOptions) ∧
    (∀ o ∈ t2i_call2_options, o ∈ recognizedOptions) ∧
    (∀ o ∈ inpaint_call_options, o ∈ recognizedOptions) :=
  ⟨rfl, rfl, by decide, by decide, by decide⟩

/-- C5: the grid layouts chosen by the notebooks (2 rows, with the column
count computed from the number of prompts) provide a cell for each generated
image of a batch: tiling preserves every image, and the cell count equals the
batch size. -/
theorem claim_C5_grid_has_cell_for_each_image (imgs1 imgs2 : List α)
    (h1 : imgs1.length = t2i_prompt.length)
    (h2 : imgs2.length = inpaint_num_images) :
    (t2i_grid imgs1).flatten = imgs1 ∧
    (inpaint_grid imgs2).flatten = imgs2 ∧
    2 * (t2i_prompt.length / 2) = t2i_prompt.length ∧
    2 * ((inpaint_num_images + 1) / 2) = inpaint_num_images := by
  refine ⟨?_, ?_, rfl, rfl⟩
  · exact image_grid_flatten imgs1 2 (t2i_prompt.length / 2) (by rw [h1]; rfl)
  · exact image_grid_flatten imgs2 2 ((inpaint_num_images + 1) / 2) (by rw [h2]; rfl)

/-- C5 witness: the grid property evaluated on concrete batches of four
images. -/
theorem claim_C5_grid_has_cell_for_each_image_witness :
    (([1, 2, 3, 4] : List Nat).length = t2i_prompt.length ∧
      ([5, 6, 7, 8] : List Nat).length = inpaint_num_images) ∧
    ((t2i_grid [1, 2, 3, 4]).flatten = [1, 2, 3, 4] ∧
      (inpaint_grid [5, 6, 7, 8]).flatten = [5, 6, 7, 8] ∧
      2 * (t2i_prompt.length / 2) = t2i_prompt.length ∧
      2 * ((inpaint_num_images + 1) / 2) = inpaint_num_images) :=
  ⟨⟨rfl, rfl⟩, claim_C5_grid_has_cell_for_each_image [1, 2, 3, 4] [5, 6, 7, 8] rfl rfl⟩

/-- C8 counterexample: the notebooks do not perform their steps in the single
fixed order construct → set parameters → call → receive → post-process →
display.  The text-to-image notebook displays a raw pipeline output before any
post-processing, and the inpainting notebook post-processes and displays the
input image/mask grid before its pipeline call, so both traces leave the
claimed phase order. -/
theorem claim_C8_fixed_order_counterexample :
    ¬ fixedOrder t2iTrace ∧ ¬ fixedOrder inpaintTrace ∧
    allPreceded .postprocess .display t2iTrace false = false := by
  refine ⟨by decide, by decide, by decide⟩

/-- C8 (amended): in both notebook runs the model is constructed before any
pipeline call, generation parameters are set before every pipeline call,
every receipt of output follows a pipeline call, and the final display of
each notebook occurs only after a post-processing step; the single fixed
global order does not hold because a raw pipeline output (text-to-image) and
the input image/mask grid (inpainting) are displayed before the
post-processing of generated output. -/
theorem claim_C8_amended_order :
    allPreceded .construct .callPipeline t2iTrace false = true ∧
    allPreceded .construct .callPipeline inpaintTrace false = true ∧
    allPreceded .setParams .callPipeline t2iTrace false = true ∧
    allPreceded .setParams .callPipeline inpaintTrace false = true ∧
    allPreceded .callPipeline .receiveOutput t2iTrace false = true ∧
    allPreceded .callPipeline .receiveOutput inpaintTrace false = true ∧
    existsAfterFirst .postprocess .display t2iTrace.reverse = true ∧
    existsAfterFirst .postprocess .display inpaintTrace.reverse = true := by
  refine ⟨by decide, by decide, by decide, by decide, by decide, by decide,
    by decide, by decide⟩

/-- C1: for every invocation of the diffusion pipeline with an ordered
sequence of prompts (paired positionally with its negative prompts), the
output contains exactly one image per prompt, in the same order as the
prompts: entry `k` is the decoded final latent of prompt `k`. -/
theorem claim_C1_one_image_per_prompt (b : DiffusionBackend L I)
    (prompts nps : List String) (steps : Nat)
    (h : nps.length = prompts.length) :
    ∃ imgs, modelCall b prompts nps steps false = .finals imgs ∧
      imgs.length = prompts.length ∧
      ∀ k, k < prompts.length →
        imgs[k]? = some (b.decode (finalLatent b (prompts.getD k "")
          (nps.getD k "") steps (b.init k))) := by
  refine ⟨callFinals b prompts nps steps 0, rfl,
    callFinals_length b prompts nps steps 0 h, ?_⟩
  intro k hk
  simpa using callFinals_get b prompts nps steps 0 k h hk

/-- C1 witness: the pipeline model evaluated on a concrete two-prompt batch. -/
theorem claim_C1_one_image_per_prompt_witness :
    (["c", "d"] : List String).length = (["a", "b"] : List String).length ∧
    (∃ imgs, modelCall sampleBackend ["a", "b"] ["c", "d"] 2 false = .finals imgs ∧
      imgs.length = (["a", "b"] : List String).length ∧
      ∀ k, k < (["a", "b"] : List String).length →
        imgs[k]? = some (sampleBackend.decode (finalLatent sampleBackend
          ((["a", "b"] : List String).getD k "") ((["c", "d"] : List String).getD k "")
          2 (sampleBackend.init k)))) :=
  ⟨rfl, claim_C1_one_image_per_prompt sampleBackend ["a", "b"] ["c", "d"] 2 rfl⟩

/-- C2: with `return_latent_history=True` the result for each prompt is the
full sequence of per-denoising-step snapshots — its decoded trajectory, one
image per step, whose last entry is the final image — while without the flag
only the final image per prompt is returned. -/
theorem claim_C2_latent_history_flag (b : DiffusionBackend L I)
    (prompts nps : List String) (steps : Nat)
    (h : nps.length = prompts.length) (hpos : 0 < steps) :
    (∃ hs, modelCall b prompts nps steps true = .history hs ∧
      hs.length = prompts.length ∧
      ∀ k, k < prompts.length → ∃ seq,
        hs[k]? = some seq ∧
        seq = (latentHistory b (prompts.getD k "") (nps.getD k "") steps
          (b.init k)).map b.decode ∧
        seq.length = steps ∧
        seq.getLast? = some (b.decode (finalLatent b (prompts.getD k "")
          (nps.getD k "") steps (b.init k)))) ∧
    (∃ fins, modelCall b prompts nps steps false = .finals fins ∧
      fins.length = prompts.length ∧
      ∀ k, k < prompts.length →
        fins[k]? = some (b.decode (finalLatent b (prompts.getD k "")
          (nps.getD k "") steps (b.init k)))) := by
  constructor
  · refine ⟨callHistory b prompts nps steps 0, rfl,
      callHistory_length b prompts nps steps 0 h, ?_⟩
    intro k hk
    refine ⟨(latentHistory b (prompts.getD k "") (nps.getD k "") steps
      (b.init k)).map b.decode, ?_, rfl, ?_, ?_⟩
    · simpa using callHistory_get b prompts nps steps 0 k h hk
    · rw [List.length_map, latentHistory_length]
    · rw [List.getLast?_map,
        latentHistory_getLast b (prompts.getD k "") (nps.getD k "") steps (b.init k) hpos]
      rfl
  · refine ⟨callFinals b prompts nps steps 0, rfl,
      callFinals_length b prompts nps steps 0 h, ?_⟩
    intro k hk
    simpa using callFinals_get b prompts nps steps 0 k h hk

/-- C2 witness: the latent-history flag evaluated on a concrete two-prompt
batch with three denoising steps. -/
theorem claim_C2_latent_history_flag_witness :
    ((["c", "d"] : List String).length = (["a", "b"] : List String).length ∧
      0 < 3) ∧
    ((∃ hs, modelCall sampleBackend ["a", "b"] ["c", "d"] 3 true = .history hs ∧
      hs.length = (["a", "b"] : List String).length ∧
      ∀ k, k < (["a", "b"] : List String).length → ∃ seq,
        hs[k]? = some seq ∧
        seq = (latentHistory sampleBackend ((["a", "b"] : List String).getD k "")
          ((["c", "d"] : List String).getD k "") 3 (sampleBackend.init k)).map
            sampleBackend.decode ∧
        seq.length = 3 ∧
        seq.getLast? = some (sampleBackend.decode (finalLatent sampleBackend
          ((["a", "b"] : List String).getD k "") ((["c", "d"] : List String).getD k "")
          3 (sampleBackend.init k)))) ∧
    (∃ fins, modelCall sampleBackend ["a", "b"] ["c", "d"] 3 false = .finals fins ∧
      fins.length = (["a", "b"] : List String).length ∧
      ∀ k, k < (["a", "b"] : List String).length →
        fins[k]? = some (sampleBackend.decode (finalLatent sampleBackend
          ((["a", "b"] : List String).getD k "") ((["c", "d"] : List String).getD k "")
          3 (sampleBackend.init k))))) :=
  ⟨⟨rfl, by decide⟩,
    claim_C2_latent_history_flag sampleBackend ["a", "b"] ["c", "d"] 3 rfl (by decide)⟩

lemma inpaintRow_getD (d : α) :
    ∀ (os gs : List α) (ms : List Nat) (j : Nat),
      gs.length = os.length → ms.length = os.length → j < os.length →
      (inpaintRow os gs ms).getD j d =
        inpaintPixel (os.getD j d) (gs.getD j d) (ms.getD j 0) := by
  intro os
  induction os with
  | nil => intro gs ms j _ _ hj; simp at hj
  | cons o os ih =>
    intro gs ms j hg hm hj
    cases gs with
    | nil => simp at hg
    | cons g gs =>
      cases ms with
      | nil => simp at hm
      | cons m ms =>
        cases j with
        | zero => rfl
        | succ j =>
          simp only [inpaintRow, List.getD_cons_succ]
          exact ih gs ms j (by simpa using hg) (by simpa using hm) (by simpa using hj)

lemma inpaintImage_getD (α : Type) :
    ∀ (os gs : List (List α)) (ms : List (List Nat)) (i : Nat),
      gs.length = os.length → ms.length = os.length → i < os.length →
      (inpaintImage os gs ms).getD i [] =
        inpaintRow (os.getD i []) (gs.getD i []) (ms.getD i []) := by
  intro os
  induction os with
  | nil => intro gs ms i _ _ hi; simp at hi
  | cons o os ih =>
    intro gs ms i hg hm hi
    cases gs with
    | nil => simp at hg
    | cons g gs =>
      cases ms with
      | nil => simp at hm
      | cons m ms =>
        cases i with
        | zero => rfl
        | succ i =>
          simp only [inpaintImage, List.getD_cons_succ]
          exact ih gs ms i (by simpa using hg) (by simpa using hm) (by simpa using hi)

lemma getD_mem_of_lt {a : List α} {i : Nat} (d : α) (h : i < a.length) :
    a.getD i d ∈ a := by
  rw [List.getD_eq_getElem a d h]
  exact List.getElem_mem h

/-- C9: for every inpainting invocation, wherever the supplied mask is black
the output pixel is retained from the input image; a pixel that changes can
only lie where the mask is white, and there the output is the
diffusion-generated content. -/
theorem claim_C9_mask_regions (orig gen mask : List (List Nat)) (h w : Nat)
    (ho : shape2 h w orig) (hg : shape2 h w gen) (hm : shape2 h w mask)
    (hbin : ∀ r ∈ mask, ∀ v ∈ r, v = 0 ∨ v = 255)
    (i j : Nat) (hi : i < h) (hj : j < w) :
    (at2 mask 0 i j = 0 →
      at2 (inpaintImage orig gen mask) 0 i j = at2 orig 0 i j) ∧
    (at2 (inpaintImage orig gen mask) 0 i j ≠ at2 orig 0 i j →
      at2 mask 0 i j = 255 ∧
      at2 (inpaintImage orig gen mask) 0 i j = at2 gen 0 i j) := by
  obtain ⟨holen, horow⟩ := ho
  obtain ⟨hglen, hgrow⟩ := hg
  obtain ⟨hmlen, hmrow⟩ := hm
  have hio : i < orig.length := holen ▸ hi
  have him : i < mask.length := hmlen ▸ hi
  have hwo : (orig.getD i []).length = w := horow _ (getD_mem_of_lt [] hio)
  have hwg : (gen.getD i []).length = w :=
    hgrow _ (getD_mem_of_lt [] (hglen ▸ hi))
  have hwm : (mask.getD i []).length = w := hmrow _ (getD_mem_of_lt [] him)
  have hkey : at2 (inpaintImage orig gen mask) 0 i j =
      inpaintPixel (at2 orig 0 i j) (at2 gen 0 i j) (at2 mask 0 i j) := by
    unfold at2
    rw [inpaintImage_getD Nat orig gen mask i (by omega) (by omega) hio]
    exact inpaintRow_getD 0 (orig.getD i []) (gen.getD i []) (mask.getD i []) j
      (by omega) (by omega) (by omega)
  constructor
  · intro h0
    rw [hkey, h0]
    rfl
  · intro hne
    have hv : at2 mask 0 i j ≠ 0 := by
      intro h0
      exact hne (by rw [hkey, h0]; rfl)
    have hmem : at2 mask 0 i j ∈ mask.getD i [] :=
      getD_mem_of_lt 0 (by omega)
    have h255 : at2 mask 0 i j = 255 := by
      rcases hbin _ (getD_mem_of_lt [] him) _ hmem with h0 | h255
      · exact absurd h0 hv
      · exact h255
    refine ⟨h255, ?_⟩
    rw [hkey]
    simp [inpaintPixel, hv]

/-- C9 witness: the mask semantics evaluated on a concrete 1×2 image whose
mask is black at column 0 and white at column 1. -/
theorem claim_C9_mask_regions_witness :
    (shape2 1 2 ([[1, 2]] : List (List Nat)) ∧ shape2 1 2 [[5, 6]] ∧
      shape2 1 2 [[0, 255]] ∧
      (∀ r ∈ ([[0, 255]] : List (List Nat)), ∀ v ∈ r, v = 0 ∨ v = 255) ∧
      (0 : Nat) < 1 ∧ (1 : Nat) < 2) ∧
    ((at2 [[0, 255]] 0 0 1 = 0 →
      at2 (inpaintImage [[1, 2]] [[5, 6]] [[0, 255]]) 0 0 1 = at2 [[1, 2]] 0 0 1) ∧
    (at2 (inpaintImage [[1, 2]] [[5, 6]] [[0, 255]]) 0 0 1 ≠ at2 [[1, 2]] 0 0 1 →
      at2 [[0, 255]] 0 0 1 = 255 ∧
      at2 (inpaintImage [[1, 2]] [[5, 6]] [[0, 255]]) 0 0 1 = at2 [[5, 6]] 0 0 1)) :=
  ⟨⟨by decide, by decide, by decide, by decide, by decide, by decide⟩,
    claim_C9_mask_regions [[1, 2]] [[5, 6]] [[0, 255]] 1 2
      (by decide) (by decide) (by decide) (by decide) 0 1 (by decide) (by decide)⟩

/-! ## The text-to-image notebook as a fallible run

Embeds the executable flow of the text-to-image notebook (`part_000`): a first
pipeline call on a single prompt (`model(prompt=prompt,
num_inference_steps=num_inference_steps)[0]`, whose image the cell displays),
the batched call with `return_latent_history=True`, the `image_grid` loop over
`zip(*images)`, and `pil_to_video`.  There is no try/except, so the run is a
plain monadic sequence in `Except`: the first failure — e.g. an accelerator
out-of-memory inside either pipeline call — is the result.  The two pipeline
invocations and the video write are parameters (the external library). -/

/-- The single prompt of the text-to-image notebook's first call. -/
def t2i_first_prompt : String :=
  "Cyberpunk cityscape with towering skyscrapers, neon signs, and flying cars."

/-- The argument list of the text-to-image notebook's first call. -/
structure T2ICall1 where
  prompt : String
  num_inference_steps : Nat
deriving DecidableEq

/-- The argument list of the text-to-image notebook's batched call. -/
structure T2ICall2 where
  prompt : List String
  negative_prompt : List String
  num_inference_steps : Nat
  guidance_scale : Nat
  return_latent_history : Bool
deriving DecidableEq

/-- `model(prompt=prompt, num_inference_steps=num_inference_steps)` with the
notebook's parameters (`num_inference_steps = 20`). -/
def t2i_call1_input : T2ICall1 :=
  { prompt := t2i_first_prompt, num_inference_steps := 20 }

/-- `model(prompt=prompt, negative_prompt=[negative_prompt] * len(prompt),
num_inference_steps=num_inference_steps, guidance_scale=10.0,
return_latent_history=True)` with the notebook's parameters. -/
def t2i_call2_input : T2ICall2 :=
  { prompt := t2i_prompt
    negative_prompt := t2i_negative_prompt_list
    num_inference_steps := 20
    guidance_scale := 10
    return_latent_history := true }

/-- The text-to-image notebook run, end to end: the first call (displayed),
the batched call, the `image_grid` loop over `zip(*images)` (embedded as
transposition followed by the notebook's grid layout), and the video write. -/
def t2iNotebookRun
    (pipeline1 : T2ICall1 → Except RunError (List RGBImage))
    (pipeline2 : T2ICall2 → Except RunError (List (List RGBImage)))
    (write_video : List (List (List RGBImage)) → Except RunError Unit) :
    Except RunError (List (List (List RGBImage))) := do
  let _first ← pipeline1 t2i_call1_input
  let images ← pipeline2 t2i_call2_input
  let timestep_images := images.transpose.map (fun imgs => t2i_grid imgs)
  let _ ← write_video timestep_images
  pure timestep_images

lemma except_bind_error (e : ε) (f : α → Except ε β) :
    (Except.error e >>= f : Except ε β) = Except.error e := rfl

lemma except_bind_ok (a : α) (f : α → Except ε β) :
    (Except.ok a >>= f : Except ε β) = f a := rfl

lemma except_map_error (f : α → β) (e : ε) :
    (f <$> (Except.error e : Except ε α)) = Except.error e := rfl

lemma except_map_ok (f : α → β) (a : α) :
    (f <$> (Except.ok a : Except ε α)) = Except.ok (f a) := rfl

/-- C6: every failure arising during a notebook run — a missing image or mask
file at load, or a pipeline failure such as an accelerator out-of-memory
inside any of the three pipeline calls of the two notebooks, or a failing
video write — propagates to the caller unchanged, and no partial result is
substituted: the run's result is exactly that error. -/
theorem claim_C6_errors_propagate_unchanged {Img : Type}
    (fs : String → Option Img)
    (conv_rgb : Img → RGBImage) (conv_gray : Img → GrayImage)
    (pipeline : InpaintInput → Except RunError (List RGBImage)) (seed : Nat)
    (pipeline1 : T2ICall1 → Except RunError (List RGBImage))
    (pipeline2 : T2ICall2 → Except RunError (List (List RGBImage)))
    (write_video : List (List (List RGBImage)) → Except RunError Unit) :
    (fs image_filename = none →
      inpaintNotebookRun fs conv_rgb conv_gray pipeline seed =
        .error (.fileNotFound image_filename)) ∧
    (∀ img, fs image_filename = some img → fs mask_filename = none →
      inpaintNotebookRun fs conv_rgb conv_gray pipeline seed =
        .error (.fileNotFound mask_filename)) ∧
    (∀ e : RunError, (∀ inp, pipeline inp = .error e) →
      (∃ img, fs image_filename = some img) →
      (∃ msk, fs mask_filename = some msk) →
      inpaintNotebookRun fs conv_rgb conv_gray pipeline seed = .error e) ∧
    (∀ e : RunError, pipeline1 t2i_call1_input = .error e →
      t2iNotebookRun pipeline1 pipeline2 write_video = .error e) ∧
    (∀ (e : RunError) (r1 : List RGBImage),
      pipeline1 t2i_call1_input = .ok r1 →
      pipeline2 t2i_call2_input = .error e →
      t2iNotebookRun pipeline1 pipeline2 write_video = .error e) ∧
    (∀ (e : RunError) (r1 : List RGBImage) (r2 : List (List RGBImage)),
      pipeline1 t2i_call1_input = .ok r1 →
      pipeline2 t2i_call2_input = .ok r2 →
      write_video (r2.transpose.map (fun imgs => t2i_grid imgs)) = .error e →
      t2iNotebookRun pipeline1 pipeline2 write_video = .error e) := by
  refine ⟨?_, ?_, ?_, ?_, ?_, ?_⟩
  · intro h
    simp [inpaintNotebookRun, imageOpen, h, except_bind_error]
  · intro img himg h
    simp [inpaintNotebookRun, imageOpen, himg, h, except_bind_ok,
      except_bind_error]
  · intro e he himg hmsk
    obtain ⟨img, hi⟩ := himg
    obtain ⟨msk, hm⟩ := hmsk
    simp [inpaintNotebookRun, imageOpen, hi, hm, he, except_bind_ok,
      except_map_error]
  · intro e h1
    simp [t2iNotebookRun, h1, except_bind_error]
  · intro e r1 h1 h2
    simp [t2iNotebookRun, h1, h2, except_bind_ok, except_bind_error]
  · intro e r1 r2 h1 h2 hw
    simp [t2iNotebookRun, h1, h2, hw, except_bind_ok, except_bind_error]

/-- C6 witness: the propagation facts evaluated concretely — a missing image
file in the inpainting run, and an out-of-memory first pipeline call in the
text-to-image run. -/
theorem claim_C6_errors_propagate_unchanged_witness :
    ((fun _ : String => (none : Option Unit)) image_filename = none ∧
      (fun _ : T2ICall1 =>
          (Except.error RunError.outOfMemory : Except RunError (List RGBImage)))
        t2i_call1_input = Except.error RunError.outOfMemory) ∧
    inpaintNotebookRun (fun _ : String => (none : Option Unit))
      (fun _ => []) (fun _ => [])
      (fun _ => Except.error RunError.outOfMemory) 0 =
      Except.error (RunError.fileNotFound image_filename) ∧
    t2iNotebookRun (fun _ => Except.error RunError.outOfMemory)
      (fun _ => Except.ok []) (fun _ => Except.ok ()) =
      Except.error RunError.outOfMemory :=
  ⟨⟨rfl, rfl⟩,
    (claim_C6_errors_propagate_unchanged (fun _ => (none : Option Unit))
      (fun _ => []) (fun _ => [])
      (fun _ => Except.error RunError.outOfMemory) 0
      (fun _ => Except.error RunError.outOfMemory)
      (fun _ => Except.ok []) (fun _ => Except.ok ())).1 rfl,
    (claim_C6_errors_propagate_unchanged (fun _ => (none : Option Unit))
      (fun _ => []) (fun _ => [])
      (fun _ => Except.error RunError.outOfMemory) 0
      (fun _ => Except.error RunError.outOfMemory)
      (fun _ => Except.ok []) (fun _ => Except.ok ())).2.2.2.1
      RunError.outOfMemory rfl⟩

/-- C3: for any two runs with the same external library (file system,
conversion functions, pipeline), the same seed, and the same parameters, the
inpainting example completes end-to-end without error — given that the input
files exist and the pipeline succeeds — and produces the same output both
times. -/
theorem claim_C3_deterministic_run {Img : Type}
    (fs fs' : String → Option Img)
    (conv_rgb conv_rgb' : Img → RGBImage) (conv_gray conv_gray' : Img → GrayImage)
    (pipeline pipeline' : InpaintInput → Except RunError (List RGBImage))
    (seed seed' : Nat)
    (himg : ∃ i, fs image_filename = some i)
    (hmsk : ∃ m, fs mask_filename = some m)
    (hok : ∀ inp, ∃ out, pipeline inp = .ok out)
    (h1 : fs' = fs) (h2 : conv_rgb' = conv_rgb) (h3 : conv_gray' = conv_gray)
    (h4 : pipeline' = pipeline) (h5 : seed' = seed) :
    (∃ res, inpaintNotebookRun fs conv_rgb conv_gray pipeline seed = .ok res) ∧
    inpaintNotebookRun fs' conv_rgb' conv_gray' pipeline' seed' =
      inpaintNotebookRun fs conv_rgb conv_gray pipeline seed := by
  refine ⟨?_, by rw [h1, h2, h3, h4, h5]⟩
  obtain ⟨i, hi⟩ := himg
  obtain ⟨m, hm⟩ := hmsk
  obtain ⟨out, hout⟩ := hok
    { prompt := inpaint_prompt
      negative_prompt := inpaint_negative_prompt_list
      image := prepare_start_image (conv_rgb i) inpaint_num_images
      mask := prepare_mask_image (conv_gray m) inpaint_num_images
      num_inference_steps := 20
      start_step := 5
      image_height := 512
      image_width := 512
      guidance_scale := 10
      seed := seed }
  exact ⟨inpaint_grid out,
    by simp [inpaintNotebookRun, imageOpen, hi, hm, hout, except_bind_ok,
      except_map_ok]⟩

/-- C3 witness: determinism and error-free completion evaluated with a
concrete total file system and an always-succeeding pipeline. -/
theorem claim_C3_deterministic_run_witness :
    (∃ res, inpaintNotebookRun (fun _ : String => some ())
      (fun _ => []) (fun _ => []) (fun _ => Except.ok []) 0 = .ok res) ∧
    inpaintNotebookRun (fun _ : String => some ())
      (fun _ => []) (fun _ => []) (fun _ => Except.ok []) 0 =
      inpaintNotebookRun (fun _ : String => some ())
        (fun _ => []) (fun _ => []) (fun _ => Except.ok []) 0 :=
  claim_C3_deterministic_run (fun _ => some ()) (fun _ => some ())
    (fun _ => []) (fun _ => []) (fun _ => []) (fun _ => [])
    (fun _ => Except.ok []) (fun _ => Except.ok []) 0 0
    ⟨(), rfl⟩ ⟨(), rfl⟩ (fun _ => ⟨[], rfl⟩) rfl rfl rfl rfl rfl

end StableFused
